import Mathlib

/-!
Verification development for the FEC contribution monitor
(fec_monitor.py).  The Python source is shallowly embedded: naive
datetimes become integer second counts on a proleptic Gregorian
calendar, JSON values become an inductive type, fallible Python code
returns Except over a model of the exception classes the source
distinguishes, and the HTTP / SMTP / secret-store collaborators become
explicit inputs of the pipeline functions.
-/

namespace FecMonitor

/-! ## Naive datetimes (model of datetime.datetime)

A datetime is the signed number of seconds since 1970-01-01T00:00:00.
Python datetime comparison is chronological comparison, which this
representation preserves.  Sub-second precision is dropped: no claim
under verification distinguishes datetimes closer than one second. -/

structure DateTime where
  epoch : Int
deriving DecidableEq, Repr

instance : LT DateTime := ⟨fun a b => a.epoch < b.epoch⟩

instance (a b : DateTime) : Decidable (a < b) :=
  inferInstanceAs (Decidable (a.epoch < b.epoch))

/-- Model of t - timedelta(days = d). -/
def DateTime.subDays (t : DateTime) (d : Nat) : DateTime :=
  ⟨t.epoch - 86400 * (d : Int)⟩

def isLeap (y : Nat) : Bool :=
  y % 4 == 0 && (y % 100 != 0 || y % 400 == 0)

def daysInMonth (y m : Nat) : Nat :=
  if m == 2 then (if isLeap y then 29 else 28)
  else if m == 4 || m == 6 || m == 9 || m == 11 then 30
  else 31

/-- Days from 1970-01-01 to year/month/day (civil calendar). -/
def daysFromCivil (y m d : Nat) : Int :=
  let y1 : Nat := if m ≤ 2 then y - 1 else y
  let era := y1 / 400
  let yoe := y1 % 400
  let mp := if m > 2 then m - 3 else m + 9
  let doy := (153 * mp + 2) / 5 + d - 1
  let doe := yoe * 365 + yoe / 4 - yoe / 100 + doy
  ((era * 146097 + doe : Nat) : Int) - 719468

/-- Inverse of daysFromCivil. -/
def civilFromDays (z : Int) : Int × Nat × Nat :=
  let z2 := z + 719468
  let era := z2.fdiv 146097
  let doe := (z2 - era * 146097).toNat
  let yoe := (doe - doe / 1460 + doe / 36524 - doe / 146096) / 365
  let y : Int := era * 400 + (yoe : Int)
  let doy := doe - (365 * yoe + yoe / 4 - yoe / 100)
  let mp := (5 * doy + 2) / 153
  let d := doy - (153 * mp + 2) / 5 + 1
  let m := if mp < 10 then mp + 3 else mp - 9
  (if m ≤ 2 then y + 1 else y, m, d)

def mkDateTime (y m d h mi s : Nat) : DateTime :=
  ⟨daysFromCivil y m d * 86400 + ((h * 3600 + mi * 60 + s : Nat) : Int)⟩

/-! ## Decimal rendering helpers (model of str / strftime padding) -/

def natStrGo (n : Nat) : List Char :=
  if h : n < 10 then [Char.ofNat (48 + n)]
  else natStrGo (n / 10) ++ [Char.ofNat (48 + n % 10)]
  decreasing_by exact Nat.div_lt_self (by omega) (by omega)

def natStr (n : Nat) : String := ⟨natStrGo n⟩

def intStr (i : Int) : String :=
  if i < 0 then "-" ++ natStr i.natAbs else natStr i.natAbs

def pad2 (n : Nat) : String :=
  if n < 10 then "0" ++ natStr n else natStr n

def pad4 (y : Int) : String :=
  if y < 0 then "-" ++ natStr y.natAbs
  else
    let n := y.toNat
    if n < 10 then "000" ++ natStr n
    else if n < 100 then "00" ++ natStr n
    else if n < 1000 then "0" ++ natStr n
    else natStr n

/-- Calendar fields of a datetime: (year, month, day, hour, minute, second). -/
def DateTime.fields (t : DateTime) : Int × Nat × Nat × Nat × Nat × Nat :=
  let days := t.epoch.fdiv 86400
  let sod := (t.epoch.emod 86400).toNat
  let c := civilFromDays days
  (c.1, c.2.1, c.2.2, sod / 3600, sod % 3600 / 60, sod % 60)

/-- Model of strftime(t, percent-Y-m-d with dashes). -/
def fmtYMD (t : DateTime) : String :=
  let f := t.fields
  pad4 f.1 ++ "-" ++ pad2 f.2.1 ++ "-" ++ pad2 f.2.2.1

/-- Model of strftime(t, percent-m/d/Y). -/
def fmtMDY (t : DateTime) : String :=
  let f := t.fields
  pad2 f.2.1 ++ "/" ++ pad2 f.2.2.1 ++ "/" ++ pad4 f.1

/-- Model of strftime(t, date then space then time-of-day). -/
def fmtYMDHMS (t : DateTime) : String :=
  let f := t.fields
  pad4 f.1 ++ "-" ++ pad2 f.2.1 ++ "-" ++ pad2 f.2.2.1 ++ " " ++
    pad2 f.2.2.2.1 ++ ":" ++ pad2 f.2.2.2.2.1 ++ ":" ++ pad2 f.2.2.2.2.2

/-! ## Fixed-format date parsing (model of datetime.strptime)

All character processing is written by structural recursion over the
underlying character list of the string, so that concrete runs reduce
inside the kernel. -/

def isDigitChar (c : Char) : Bool :=
  48 ≤ c.toNat && c.toNat ≤ 57

def allDigits (l : List Char) : Bool :=
  !l.isEmpty && l.all isDigitChar

def natOfDigits (l : List Char) : Nat :=
  l.foldl (fun a c => a * 10 + (c.toNat - 48)) 0

/-- Split a character list at every occurrence of a separator. -/
def splitOnChar (sep : Char) : List Char → List (List Char)
  | [] => [[]]
  | c :: rest =>
      let r := splitOnChar sep rest
      if c = sep then [] :: r
      else
        match r with
        | h :: t => (c :: h) :: t
        | [] => [[c]]

/-- One-or-two digit field (CPython strptime directives m, d, H, M, S). -/
def parse2 (l : List Char) : Option Nat :=
  if allDigits l ∧ l.length ≤ 2 then some (natOfDigits l) else none

/-- Exactly-four digit year field (CPython strptime directive Y). -/
def parse4 (l : List Char) : Option Nat :=
  if allDigits l ∧ l.length = 4 then some (natOfDigits l) else none

def parseYMD (l : List Char) : Option (Nat × Nat × Nat) :=
  match splitOnChar '-' l with
  | [ys, ms, ds] => do
      let y ← parse4 ys
      let m ← parse2 ms
      let d ← parse2 ds
      if 1 ≤ y ∧ 1 ≤ m ∧ m ≤ 12 ∧ 1 ≤ d ∧ d ≤ daysInMonth y m then
        some (y, m, d)
      else none
  | _ => none

def parseHMS (l : List Char) : Option (Nat × Nat × Nat) :=
  match splitOnChar ':' l with
  | [hs, ms, ss] => do
      let h ← parse2 hs
      let mi ← parse2 ms
      let sec ← parse2 ss
      if h ≤ 23 ∧ mi ≤ 59 ∧ sec ≤ 59 then some (h, mi, sec) else none
  | _ => none

/-- strptime with format year-month-day (contribution_receipt_date). -/
def strptimeDateStr (s : String) : Option DateTime :=
  (parseYMD s.data).map fun f => mkDateTime f.1 f.2.1 f.2.2 0 0 0

/-- strptime with format year-month-dayThour:min:sec (load_date). -/
def strptimeLoadStr (s : String) : Option DateTime :=
  match splitOnChar 'T' s.data with
  | [dp, tp] => do
      let f ← parseYMD dp
      let g ← parseHMS tp
      some (mkDateTime f.1 f.2.1 f.2.2 g.1 g.2.1 g.2.2)
  | _ => none

/-! ## JSON values and Python runtime behaviour on them

Numbers are modelled as integers: the amounts and the claims under
verification do not depend on fractional numeric values. -/

inductive Json where
  | null
  | bool (b : Bool)
  | num (n : Int)
  | str (s : String)
  | arr (elems : List Json)
  | obj (fields : List (String × Json))

/-- The exception classes the source distinguishes.  Only
requestException is caught by get_fec_contributions. -/
inductive PyError where
  | requestException (m : String)
  | valueError (m : String)
  | typeError (m : String)
  | keyError (m : String)
  | smtpException (m : String)
deriving DecidableEq, Repr

def PyError.msg : PyError → String
  | .requestException m => m
  | .valueError m => m
  | .typeError m => m
  | .keyError m => m
  | .smtpException m => m

def PyError.isRequestException : PyError → Bool
  | .requestException _ => true
  | _ => false

def lookupField : List (String × Json) → String → Option Json
  | [], _ => none
  | (k, v) :: rest, key => if key = k then some v else lookupField rest key

/-- Model of Python subscription j[key]: KeyError on a missing dict key,
TypeError when the value is not a dict. -/
def Json.getKey : Json → String → Except PyError Json
  | .obj fields, k =>
      match lookupField fields k with
      | some v => .ok v
      | none => .error (.keyError k)
  | _, _ => .error (.typeError "value is not subscriptable by a string key")

/-- Model of Python iteration over a value: lists yield elements, strings
yield one-character strings, dicts yield their keys, everything else
raises TypeError. -/
def pyIter : Json → Except PyError (List Json)
  | .arr xs => .ok xs
  | .str s => .ok (s.data.map fun c => .str ⟨[c]⟩)
  | .obj fields => .ok (fields.map fun p => .str p.1)
  | _ => .error (.typeError "object is not iterable")

/-- Python truthiness of a JSON value. -/
def jsonFalsy : Json → Bool
  | .null => true
  | .bool b => !b
  | .num n => n == 0
  | .str s => s.data.isEmpty
  | .arr xs => xs.isEmpty
  | .obj fields => fields.isEmpty

/-- Model of the Python expression a or b. -/
def pyOr (a b : Json) : Json :=
  if jsonFalsy a then b else a

def isSpaceChar (c : Char) : Bool :=
  c = ' ' || c = '\t' || c = '\n' || c = '\r'

def trimChars (l : List Char) : List Char :=
  ((l.dropWhile isSpaceChar).reverse.dropWhile isSpaceChar).reverse

/-- Strip an optional leading sign; returns (sign, remaining digits). -/
def stripSign : List Char → Int × List Char
  | '-' :: rest => (-1, rest)
  | '+' :: rest => (1, rest)
  | l => (1, l)

/-- Model of float(j).  Fractional parts of numeric strings are dropped
(no claim depends on the numeric value, only on parse success). -/
def parseFloatStr (s : String) : Option Int :=
  let t := stripSign (trimChars s.data)
  match splitOnChar '.' t.2 with
  | [ip] => if allDigits ip then some (t.1 * (natOfDigits ip : Int)) else none
  | [ip, fp] =>
      if (allDigits ip ∨ ip.isEmpty) ∧ (allDigits fp ∨ fp.isEmpty) ∧
          ¬(ip.isEmpty ∧ fp.isEmpty) then
        some (t.1 * (natOfDigits ip : Int))
      else none
  | _ => none

def pyFloat : Json → Except PyError Int
  | .num n => .ok n
  | .bool b => .ok (if b then 1 else 0)
  | .str s =>
      match parseFloatStr s with
      | some v => .ok v
      | none => .error (.valueError "could not convert string to float")
  | _ => .error (.typeError "float() argument must be a string or a real number")

/-- Model of str(j) as used when a value is interpolated into the HTML
body.  Container reprs are abbreviated (written with escaped braces); the
claims depend only on strings and on non-emptiness. -/
def pyStrOf : Json → String
  | .str s => s
  | .null => "None"
  | .num n => intStr n
  | .bool b => if b then "True" else "False"
  | .arr _ => "[...]"
  | .obj _ => "\x7b...\x7d"

/-- strptime applied to a JSON value with the load_date format. -/
def strptimeLoadJ : Json → Except PyError DateTime
  | .str s =>
      match strptimeLoadStr s with
      | some t => .ok t
      | none => .error (.valueError "time data does not match load_date format")
  | _ => .error (.typeError "strptime() argument 1 must be str")

/-- strptime applied to a JSON value with the contribution date format. -/
def strptimeDateJ : Json → Except PyError DateTime
  | .str s =>
      match strptimeDateStr s with
      | some t => .ok t
      | none => .error (.valueError "time data does not match date format")
  | _ => .error (.typeError "strptime() argument 1 must be str")

/-! ## Data model (fec_monitor.py lines 15-27) -/

structure Contributor where
  name : String
  employer : Option String := none
deriving DecidableEq, Repr

/-- The Contribution dataclass.  contributor_name, employer and
committee_name are stored exactly as taken from the JSON response (the
dataclass annotations are not enforced at runtime), so they keep the
Json type here. -/
structure Contribution where
  date : DateTime
  amount : Int
  contributor_name : Json
  employer : Json
  committee_name : Json
  load_date : DateTime

/-! ## Contribution fetcher (fec_monitor.py lines 36-90) -/

/-- The query-parameter dictionary built at lines 53-62. -/
structure FecParams where
  api_key : String
  contributor_name : String
  contributor_employer : Option String
  min_date : String
  max_date : String
  sort : String
  per_page : Nat
  is_individual : Bool
deriving DecidableEq, Repr

def buildParams (contributor : Contributor) (api_key : String) (now : DateTime)
    (days_back_contrib : Nat) : FecParams :=
  let contrib_start_date := now.subDays days_back_contrib
  { api_key := api_key
    contributor_name := contributor.name
    contributor_employer := contributor.employer
    min_date := fmtMDY contrib_start_date
    max_date := fmtMDY now
    sort := "-contribution_receipt_date"
    per_page := 100
    is_individual := true }

/-- Outcome of the single requests.get call: either the call raised a
RequestException (network failure and kin), or it produced a response
with a status code and a body.  A body of none means response.json()
fails to decode; with requests at least 2.27 that raises
requests.exceptions.JSONDecodeError, a RequestException subclass. -/
inductive HttpOutcome where
  | exn (m : String)
  | response (status : Nat) (body : Option Json)

/-- Parse of result load_date at line 72. -/
def loadDateOf (r : Json) : Except PyError DateTime := do
  strptimeLoadJ (← r.getKey "load_date")

/-- The remaining field accesses and conversions of the Contribution
constructor call (lines 76-83), in Python evaluation order. -/
def parseFields (r : Json) :
    Except PyError (DateTime × Int × Json × Json × Json) := do
  let dateJ ← r.getKey "contribution_receipt_date"
  let date ← strptimeDateJ dateJ
  let amountJ ← r.getKey "contribution_receipt_amount"
  let amount ← pyFloat amountJ
  let nameJ ← r.getKey "contributor_name"
  let employerJ ← r.getKey "contributor_employer"
  let committee ← r.getKey "committee"
  let committeeName ← committee.getKey "name"
  pure (date, amount, nameJ, employerJ, committeeName)

def mkContribution (load_date : DateTime) :
    DateTime × Int × Json × Json × Json → Contribution
  | (date, amount, nameJ, employerJ, committeeName) =>
    { date := date
      amount := amount
      contributor_name := nameJ
      employer := pyOr employerJ (.str "Not reported")
      committee_name := committeeName
      load_date := load_date }

def parseRest (r : Json) (load_date : DateTime) : Except PyError Contribution :=
  (parseFields r).map (mkContribution load_date)

/-- Body of the result loop (lines 70-84) for one raw result: parse the
load date, and only when it is strictly after min_load_date build the
Contribution. -/
def parseOne (min_load_date : DateTime) (r : Json) :
    Except PyError (Option Contribution) := do
  let load_date ← loadDateOf r
  if min_load_date < load_date then
    let c ← parseRest r load_date
    pure (some c)
  else
    pure none

/-- The whole result loop, accumulating the retained contributions in
order. -/
def processResults (min_load_date : DateTime) :
    List Json → Except PyError (List Contribution)
  | [] => pure []
  | r :: rs => do
      let c? ← parseOne min_load_date r
      let rest ← processResults min_load_date rs
      pure (match c? with
            | some c => c :: rest
            | none => rest)

/-- The try block of get_fec_contributions (lines 64-86).  The single
HTTP request is modelled by evaluating the collaborator http at the
built parameter dictionary. -/
def fetchTry (http : FecParams → HttpOutcome) (params : FecParams)
    (min_load_date : DateTime) : Except PyError (List Contribution) :=
  match http params with
  | .exn m => .error (.requestException m)
  | .response status body =>
      if 400 ≤ status ∧ status < 600 then
        -- response.raise_for_status() raises HTTPError, a RequestException,
        -- exactly for client-error (4xx) and server-error (5xx) codes
        .error (.requestException "HTTPError")
      else
        match body with
        | none => .error (.requestException "JSONDecodeError")
        | some data => do
            let resultsJ ← data.getKey "results"
            let results ← pyIter resultsJ
            processResults min_load_date results

/-- get_fec_contributions (lines 36-90): run the try block and catch
exactly requests.exceptions.RequestException, degrading it to an empty
list; every other exception propagates to the caller. -/
def get_fec_contributions (contributor : Contributor) (api_key : String)
    (http : FecParams → HttpOutcome) (now : DateTime)
    (days_back_load : Nat := 14) (days_back_contrib : Nat := 180) :
    Except PyError (List Contribution) :=
  -- min_load_date is now - days_back_load (line 51); the parameter
  -- dictionary is built from now and days_back_contrib (lines 53-62)
  match fetchTry http (buildParams contributor api_key now days_back_contrib)
      (now.subDays days_back_load) with
  | .error e => if e.isRequestException then .ok [] else .error e
  | .ok contributions => .ok contributions

/-! ## Digest formatter (fec_monitor.py lines 92-118)

The f-string templates are reproduced exactly, with the per-row and
header cell sequences factored into lists: interleaving the fixed
inter-cell markup between the list elements yields the very string the
Python string literals build.  Apostrophes inside markup strings are
written with an escape. -/

/-- Model of the Python float format spec comma-.2f on the integer
amount model: thousands separators plus two decimals. -/
def commaGroupGo : List Char → List Char
  | a :: b :: c :: d :: rest => a :: b :: c :: ',' :: commaGroupGo (d :: rest)
  | l => l

def formatAmount (n : Int) : String :=
  let digits := (natStrGo n.natAbs).reverse
  let grouped := (commaGroupGo digits).reverse
  (if n < 0 then "-" else "") ++ ⟨grouped⟩ ++ ".00"

/-- The header labels of the per-contributor table (line 101). -/
def headerCells : List String := ["Date", "Amount", "Committee", "Employer"]

/-- The header row markup of line 101. -/
def headerRowHtml : String :=
  "<tr>" ++ String.join (headerCells.map fun h => "<th>" ++ h ++ "</th>") ++ "</tr>"

/-- The five cell contents of one data row (lines 104-112), in order. -/
def rowCells (c : Contribution) : List String :=
  [fmtYMD c.date,
   "$" ++ formatAmount c.amount,
   pyStrOf c.committee_name,
   pyStrOf c.employer,
   fmtYMDHMS c.load_date]

/-- One data row: the f-string of lines 104-112 with its exact
whitespace. -/
def rowHtml (c : Contribution) : String :=
  "\n                <tr>\n                    <td>" ++
    String.intercalate "</td>\n                    <td>" (rowCells c) ++
    "</td>\n                </tr>\n                "

/-- The markup emitted for one contributor entry (lines 97-115). -/
def sectionHtml (entry : String × List Contribution) : String :=
  if !entry.2.isEmpty then
    "<h3>Contributions from " ++ entry.1 ++ "</h3>" ++
      "<table border=\x271\x27 style=\x27border-collapse: collapse; width: 100%;\x27>" ++
      headerRowHtml ++
      String.join (entry.2.map rowHtml) ++
      "</table><br>"
  else
    "<p>No recent contributions found for " ++ entry.1 ++ "</p><br>"

/-- format_email_body (lines 92-118).  The insertion-ordered Python dict
is modelled as an association list. -/
def format_email_body (contributions_by_contributor : List (String × List Contribution)) :
    String :=
  "<html><body>" ++ "<h2>FEC Contribution Alert</h2>" ++
    String.join (contributions_by_contributor.map sectionHtml) ++
    "</body></html>"

/-! ## Notification transport (fec_monitor.py lines 120-137) -/

structure EmailMsg where
  to_email : String
  subject : String
  body : String

/-- send_email: the SMTP session either succeeds or raises; the except
clause only logs and re-raises, so the outcome passes through.  The
transport outcome is an input of the model. -/
def send_email (transportError : Option String) : Except PyError Unit :=
  match transportError with
  | some m => .error (.smtpException m)
  | none => .ok ()

/-! ## Run orchestrator (fec_monitor.py lines 139-218) -/

structure Env where
  project_id : Option String
  notification_email : Option String
  smtp_server : Option String
  smtp_port : Option String
  smtp_username : Option String
  from_email : Option String

/-- External collaborators and ambient state of one run. -/
structure World where
  env : Env
  secrets : String → Except PyError String
  http : FecParams → HttpOutcome
  now : DateTime
  transportError : Option String

/-- Model of int() applied to the SMTP_PORT string. -/
def pyInt (s : String) : Except PyError Int :=
  let t := stripSign (trimChars s.data)
  if allDigits t.2 then
    .ok (t.1 * (natOfDigits t.2 : Int))
  else .error (.valueError "invalid literal for int() with base 10")

/-- The hardcoded watch list (lines 161-199). -/
def contributors : List Contributor :=
  [{ name := "Sundar Pichai", employer := some "Google" },
   { name := "Kent Walker", employer := some "Google" },
   { name := "Thomas Kurian", employer := some "Google" },
   { name := "Jen Fitzpatrick", employer := some "Google" },
   { name := "Rick Osterloh", employer := some "Google" },
   { name := "Prabhakar Raghavan", employer := some "Google" },
   { name := "Lorraine Twohill", employer := some "Google" },
   { name := "Corey DuBrowa", employer := some "Google" },
   { name := "Neal Mohan", employer := some "Google" },
   { name := "Anat Ashkenazi", employer := some "Google" },
   { name := "Jeff Dean", employer := some "Google" },
   { name := "Ruth Porat", employer := some "Google" }]

/-- Python dict assignment d[k] = v on the association-list model:
replace in place when the key exists, append otherwise. -/
def dictSet (m : List (String × List Contribution)) (k : String)
    (v : List Contribution) : List (String × List Contribution) :=
  match m with
  | [] => [(k, v)]
  | (k0, v0) :: rest =>
      if k0 = k then (k0, v) :: rest else (k0, v0) :: dictSet rest k v

def dictFind (m : List (String × List Contribution)) (k : String) :
    Option (List Contribution) :=
  match m with
  | [] => none
  | (k0, v0) :: rest => if k = k0 then some v0 else dictFind rest k

/-- The fetch loop of lines 202-205 with its accumulated dict. -/
def aggFrom (api_key : String) (http : FecParams → HttpOutcome) (now : DateTime)
    (acc : List (String × List Contribution)) :
    List Contributor → Except PyError (List (String × List Contribution))
  | [] => pure acc
  | c :: cs => do
      let contributions ← get_fec_contributions c api_key http now
      aggFrom api_key http now (dictSet acc c.name contributions) cs

def aggregate (registry : List Contributor) (api_key : String)
    (http : FecParams → HttpOutcome) (now : DateTime) :
    Except PyError (List (String × List Contribution)) :=
  aggFrom api_key http now [] registry

/-- The body of the top-level try of monitor_contributions (lines
142-214), also recording the transport send attempts made. -/
def runBody (w : World) : Except PyError (String × Nat) × List EmailMsg :=
  match w.env.project_id with
  | none => (.error (.keyError "PROJECT_ID"), [])
  | some _ =>
  match w.env.notification_email with
  | none => (.error (.keyError "NOTIFICATION_EMAIL"), [])
  | some notification_email =>
  match w.secrets "fec-api-key" with
  | .error e => (.error e, [])
  | .ok fec_api_key =>
  match w.secrets "smtp-password" with
  | .error e => (.error e, [])
  | .ok _smtp_password =>
  match pyInt ((w.env.smtp_port).getD "587") with
  | .error e => (.error e, [])
  | .ok _port =>
  match aggregate contributors fec_api_key w.http w.now with
  | .error e => (.error e, [])
  | .ok contributions_by_contributor =>
    -- lines 208-214: html_content is format_email_body applied to the
    -- aggregate, the subject carries the current date, and the single
    -- send_email call either raises or succeeds
    if contributions_by_contributor.any (fun p => !p.2.isEmpty) then
      match send_email w.transportError with
      | .error e =>
          (.error e,
           [{ to_email := notification_email
              subject := "FEC Contribution Alert - " ++ fmtYMD w.now
              body := format_email_body contributions_by_contributor }])
      | .ok _ =>
          (.ok ("Alert sent successfully", 200),
           [{ to_email := notification_email
              subject := "FEC Contribution Alert - " ++ fmtYMD w.now
              body := format_email_body contributions_by_contributor }])
    else
      (.ok ("No new contributions found", 200), [])

/-- monitor_contributions (lines 139-218): the top-level except clause
turns any escaped exception into the 500 outcome. -/
def monitor_contributions (w : World) : (String × Nat) × List EmailMsg :=
  match runBody w with
  | (.ok r, sends) => (r, sends)
  | (.error e, sends) => (("Error: " ++ e.msg, 500), sends)

/-! ## General lemmas about the Except plumbing -/

theorem ok_bind {α β : Type} (a : α) (f : α → Except PyError β) :
    (Except.ok a >>= f) = f a := rfl

theorem error_bind {α β : Type} (e : PyError) (f : α → Except PyError β) :
    ((Except.error e : Except PyError α) >>= f) = .error e := rfl

theorem bind_ok_elim {α β : Type} {x : Except PyError α}
    {f : α → Except PyError β} {b : β} (h : (x >>= f) = .ok b) :
    ∃ a, x = .ok a ∧ f a = .ok b := by
  cases x with
  | ok a => exact ⟨a, rfl, h⟩
  | error e => exact absurd h (by simp [error_bind])

theorem map_ok_elim {α β : Type} {x : Except PyError α} {f : α → β} {b : β}
    (h : Except.map f x = .ok b) : ∃ a, x = .ok a ∧ f a = b := by
  cases x with
  | ok a =>
      refine ⟨a, rfl, ?_⟩
      simpa [Except.map] using h
  | error e => simp [Except.map] at h

/-! ## Structural lemmas about the fetcher -/

/-- The record a loop iteration retains, none when it was filtered out
(used only to state order/retention lemmas; never evaluated on error). -/
def okRecord (x : Except PyError (Option Contribution)) : Option Contribution :=
  match x with
  | .ok o => o
  | .error _ => none

theorem parseRest_load_date {r : Json} {ld : DateTime} {c : Contribution}
    (h : parseRest r ld = .ok c) : c.load_date = ld := by
  obtain ⟨v, hv, hc⟩ := map_ok_elim h
  obtain ⟨d0, a0, n0, e0, cm0⟩ := v
  rw [← hc]
  rfl

theorem parseFields_employer {r : Json} {d : DateTime} {a : Int}
    {n e cm : Json} (h : parseFields r = .ok (d, a, n, e, cm)) :
    r.getKey "contributor_employer" = .ok e := by
  rw [parseFields] at h
  obtain ⟨dJ, h1, h⟩ := bind_ok_elim h
  obtain ⟨date, h2, h⟩ := bind_ok_elim h
  obtain ⟨aJ, h3, h⟩ := bind_ok_elim h
  obtain ⟨amount, h4, h⟩ := bind_ok_elim h
  obtain ⟨nameJ, h5, h⟩ := bind_ok_elim h
  obtain ⟨employerJ, h6, h⟩ := bind_ok_elim h
  obtain ⟨committee, h7, h⟩ := bind_ok_elim h
  obtain ⟨committeeName, h8, h⟩ := bind_ok_elim h
  injection h with h
  injection h with hd h
  injection h with ha h
  injection h with hn h
  injection h with he hcm
  rw [← he]
  exact h6

theorem processResults_ok {ml : DateTime} {rs : List Json}
    {out : List Contribution} (h : processResults ml rs = .ok out) :
    out = rs.filterMap fun x => okRecord (parseOne ml x) := by
  induction rs generalizing out with
  | nil =>
      rw [processResults] at h
      injection h with h
      simp [← h]
  | cons r rest ih =>
      rw [processResults] at h
      obtain ⟨c?, h1, h⟩ := bind_ok_elim h
      obtain ⟨tailOut, h2, h⟩ := bind_ok_elim h
      injection h with h
      rw [List.filterMap_cons, h1]
      cases c? with
      | some c => simp [okRecord, ← h, ih h2]
      | none => simp [okRecord, ← h, ih h2]

/-! ## Concrete sample data used by witnesses and counterexamples -/

/-- A fixed clock instant: 2025-01-20 12:00:00. -/
def wNow : DateTime := mkDateTime 2025 1 20 12 0 0

/-- A raw result loaded 2025-01-10, inside the 14-day window ending at
wNow, with an old (2024-03-05) contribution date and a null employer. -/
def freshResult : Json := .obj
  [("load_date", .str "2025-01-10T00:00:00"),
   ("contribution_receipt_date", .str "2024-03-05"),
   ("contribution_receipt_amount", .num 500),
   ("contributor_name", .str "Jane Doe"),
   ("contributor_employer", .null),
   ("committee", .obj [("name", .str "Some PAC")])]

/-- The contribution freshResult parses to. -/
def freshContribution : Contribution :=
  { date := mkDateTime 2024 3 5 0 0 0
    amount := 500
    contributor_name := .str "Jane Doe"
    employer := .str "Not reported"
    committee_name := .str "Some PAC"
    load_date := mkDateTime 2025 1 10 0 0 0 }

/-- A raw result loaded 2024-12-01, outside the 14-day window ending at
wNow, though its contribution date (2025-01-18) is recent. -/
def staleResult : Json := .obj
  [("load_date", .str "2024-12-01T00:00:00"),
   ("contribution_receipt_date", .str "2025-01-18"),
   ("contribution_receipt_amount", .num 900),
   ("contributor_name", .str "Jane Doe"),
   ("contributor_employer", .str "Acme"),
   ("committee", .obj [("name", .str "Some PAC")])]

/-- An HTTP collaborator answering every query with an empty result
page. -/
def emptyHttp : FecParams → HttpOutcome := fun _ =>
  .response 200 (some (.obj [("results", .arr [])]))

/-! ## C1 -/

/-- C1: a raw result is retained iff its parsed load timestamp is
strictly after min_load_date, independently of its contribution date:
(i) whatever the other fields hold, a result whose load date is not
after min_load_date is dropped; (ii) whatever its contribution date, a
result whose load date is after min_load_date and whose remaining
fields parse is retained; (iii) any retained record has a load date
after min_load_date; (iv) the loop output is exactly the in-order
filter-map of the raw results by that rule. -/
theorem C1_freshness_filter (min_load_date : DateTime) (r : Json) :
    (∀ d, loadDateOf r = .ok d → ¬ min_load_date < d →
        parseOne min_load_date r = .ok none) ∧
    (∀ d c, loadDateOf r = .ok d → min_load_date < d →
        parseRest r d = .ok c → parseOne min_load_date r = .ok (some c)) ∧
    (∀ c, parseOne min_load_date r = .ok (some c) →
        loadDateOf r = .ok c.load_date ∧ min_load_date < c.load_date) ∧
    (∀ rs out, processResults min_load_date rs = .ok out →
        out = rs.filterMap fun x => okRecord (parseOne min_load_date x)) := by
  refine ⟨?_, ?_, ?_, ?_⟩
  · intro d hd hn
    simp only [parseOne, hd, ok_bind, if_neg hn]
    rfl
  · intro d c hd hlt hc
    simp only [parseOne, hd, ok_bind, if_pos hlt, hc]
    rfl
  · intro c h
    cases hld : loadDateOf r with
    | error e => simp [parseOne, hld, error_bind] at h
    | ok d =>
        by_cases hlt : min_load_date < d
        · simp only [parseOne, hld, ok_bind, if_pos hlt] at h
          obtain ⟨c0, hc0, h⟩ := bind_ok_elim h
          injection h with h
          injection h with h
          have hload : c.load_date = d := by
            rw [← h]
            exact parseRest_load_date hc0
          rw [hload]
          exact ⟨rfl, hlt⟩
        · simp only [parseOne, hld, ok_bind, if_neg hlt] at h
          injection h with h
          cases h
  · intro rs out h
    exact processResults_ok h

/-- Witness for C1: at the concrete clock wNow with the default 14-day
window, staleResult (loaded 2024-12-01, contribution dated 2025-01-18)
is dropped. -/
theorem C1_freshness_filter_witness :
    parseOne (wNow.subDays 14) staleResult = .ok none :=
  (C1_freshness_filter (wNow.subDays 14) staleResult).1
    (mkDateTime 2024 12 1 0 0 0) rfl (by decide)

/-! ## Non-emptiness of rendered scalar values -/

theorem natStrGo_ne_nil (n : Nat) : natStrGo n ≠ [] := by
  unfold natStrGo
  split <;> simp

theorem natStr_ne_empty (n : Nat) : natStr n ≠ "" := by
  intro h
  have hd : natStrGo n = [] := congrArg String.data h
  exact natStrGo_ne_nil n hd

theorem intStr_ne_empty (i : Int) : intStr i ≠ "" := by
  unfold intStr
  split
  · intro h
    have hd := congrArg String.data h
    rw [String.data_append] at hd
    simp at hd
  · exact natStr_ne_empty i.natAbs

theorem data_ne_empty {s : String} (h : s.data.isEmpty = false) : s ≠ "" := by
  intro he
  subst he
  simp at h

/-- A truthy JSON value never renders as the empty string. -/
theorem pyStrOf_truthy_ne_empty {j : Json} (h : jsonFalsy j = false) :
    pyStrOf j ≠ "" := by
  cases j with
  | null => simp [jsonFalsy] at h
  | bool b =>
      cases b with
      | true => simp [pyStrOf]
      | false => simp [jsonFalsy] at h
  | num n => exact intStr_ne_empty n
  | str s => exact data_ne_empty h
  | arr xs => simp [pyStrOf]
  | obj fields => simp [pyStrOf]

/-! ## Elimination form for a retained record -/

theorem parseOne_some_elim {ml : DateTime} {r : Json} {c : Contribution}
    (h : parseOne ml r = .ok (some c)) :
    ∃ ld v, loadDateOf r = .ok ld ∧ ml < ld ∧ parseFields r = .ok v ∧
      c = mkContribution ld v := by
  cases hld : loadDateOf r with
  | error e => simp [parseOne, hld, error_bind] at h
  | ok d =>
      by_cases hlt : ml < d
      · simp only [parseOne, hld, ok_bind, if_pos hlt] at h
        obtain ⟨c0, hc0, h⟩ := bind_ok_elim h
        injection h with h
        injection h with h
        obtain ⟨v, hv, hmk⟩ := map_ok_elim hc0
        exact ⟨d, v, rfl, hlt, hv, by rw [← h, ← hmk]⟩
      · simp only [parseOne, hld, ok_bind, if_neg hlt] at h
        injection h with h
        cases h

/-! ## C5 -/

/-- C5: when the raw employer field holds JSON null (an absent value),
the built record carries the literal sentinel string, and in every
retained record the employer is neither null nor the empty string, and
its rendered table cell (cell index 3 of the data row) is never blank. -/
theorem C5_employer_not_reported (min_load_date : DateTime) (r : Json)
    (c : Contribution) (h : parseOne min_load_date r = .ok (some c)) :
    (r.getKey "contributor_employer" = .ok Json.null →
        c.employer = .str "Not reported") ∧
    c.employer ≠ Json.null ∧ c.employer ≠ .str "" ∧
    (rowCells c).get? 3 = some (pyStrOf c.employer) ∧
    pyStrOf c.employer ≠ "" := by
  obtain ⟨ld, v, hld, hlt, hv, hc⟩ := parseOne_some_elim h
  obtain ⟨d0, a0, n0, e0, cm0⟩ := v
  have hemp : c.employer = pyOr e0 (.str "Not reported") := by
    rw [hc]
    rfl
  have hgot : r.getKey "contributor_employer" = .ok e0 := parseFields_employer hv
  refine ⟨?_, ?_, ?_, rfl, ?_⟩
  · intro hnull
    rw [hgot] at hnull
    injection hnull with hnull
    rw [hemp, hnull]
    rfl
  · rw [hemp]
    unfold pyOr
    split
    · simp
    · rename_i hfalse
      intro hn
      rw [hn] at hfalse
      exact hfalse rfl
  · rw [hemp]
    unfold pyOr
    split
    · simp
    · rename_i hfalse
      intro hn
      rw [hn] at hfalse
      exact hfalse rfl
  · rw [hemp]
    unfold pyOr
    split
    · simp [pyStrOf]
    · rename_i hfalse
      exact pyStrOf_truthy_ne_empty (Bool.not_eq_true _ ▸ Bool.of_not_eq_true hfalse)

/-- Witness for C5: the concrete freshResult has a null employer and
parses to freshContribution, whose employer is the sentinel string. -/
theorem C5_employer_not_reported_witness :
    freshContribution.employer = .str "Not reported" :=
  (C5_employer_not_reported (wNow.subDays 14) freshResult freshContribution rfl).1 rfl

/-! ## C9 -/

/-- C9: replacement of the employer by the sentinel is keyed on Python
falsiness of the raw value, not only on absence: any falsy employer
value (null, empty string, zero, false, empty containers) becomes the
sentinel, and any truthy value is kept verbatim. -/
theorem C9_employer_falsy (min_load_date : DateTime) (r : Json)
    (c : Contribution) (j : Json) (h : parseOne min_load_date r = .ok (some c))
    (hj : r.getKey "contributor_employer" = .ok j) :
    (jsonFalsy j = true → c.employer = .str "Not reported") ∧
    (jsonFalsy j = false → c.employer = j) := by
  obtain ⟨ld, v, hld, hlt, hv, hc⟩ := parseOne_some_elim h
  obtain ⟨d0, a0, n0, e0, cm0⟩ := v
  have hgot : r.getKey "contributor_employer" = .ok e0 := parseFields_employer hv
  rw [hgot] at hj
  injection hj with hj
  have hemp : c.employer = pyOr e0 (.str "Not reported") := by
    rw [hc]
    rfl
  subst hj
  constructor
  · intro hfalsy
    rw [hemp]
    unfold pyOr
    rw [if_pos hfalsy]
  · intro htruthy
    rw [hemp]
    unfold pyOr
    rw [if_neg (by simp [htruthy])]

/-- A raw result whose employer field is the empty string. -/
def emptyEmployerResult : Json := .obj
  [("load_date", .str "2025-01-12T08:30:00"),
   ("contribution_receipt_date", .str "2024-11-02"),
   ("contribution_receipt_amount", .num 250),
   ("contributor_name", .str "John Roe"),
   ("contributor_employer", .str ""),
   ("committee", .obj [("name", .str "Another PAC")])]

/-- The contribution emptyEmployerResult parses to. -/
def emptyEmployerContribution : Contribution :=
  { date := mkDateTime 2024 11 2 0 0 0
    amount := 250
    contributor_name := .str "John Roe"
    employer := .str "Not reported"
    committee_name := .str "Another PAC"
    load_date := mkDateTime 2025 1 12 8 30 0 }

/-- Witness for C9: an employer present but equal to the empty string is
likewise replaced by the sentinel. -/
theorem C9_employer_falsy_witness :
    emptyEmployerContribution.employer = .str "Not reported" :=
  (C9_employer_falsy (wNow.subDays 14) emptyEmployerResult
      emptyEmployerContribution (.str "") rfl rfl).1 rfl

/-! ## C10 -/

/-- C10: the digest table header row has exactly the four labels Date,
Amount, Committee, Employer, while every data row has five cells, the
fifth being the load timestamp rendered in date-hour-minute-second
format; so one data cell (the load timestamp) has no header label. -/
theorem C10_row_shape :
    headerCells = ["Date", "Amount", "Committee", "Employer"] ∧
    headerCells.length = 4 ∧
    (∀ c : Contribution,
        (rowCells c).length = 5 ∧
        (rowCells c).length = headerCells.length + 1 ∧
        (rowCells c).get? 4 = some (fmtYMDHMS c.load_date)) ∧
    (∀ c : Contribution,
        rowHtml c =
          "\n                <tr>\n                    <td>" ++
            String.intercalate "</td>\n                    <td>" (rowCells c) ++
            "</td>\n                </tr>\n                ") ∧
    headerRowHtml =
      "<tr>" ++ String.join (headerCells.map fun h => "<th>" ++ h ++ "</th>") ++
        "</tr>" := by
  exact ⟨rfl, rfl, fun c => ⟨rfl, rfl, rfl⟩, fun c => rfl, rfl⟩

/-! ## C7 -/

/-- A generic sample contributor for witnesses. -/
def cSample : Contributor := { name := "A. Donor", employer := some "Acme" }

/-- C7: with the default windows, the query parameter dictionary sent to
the API carries the contribution-date window [now - 180 days, now] in
month/day/year format, descending sort by contribution receipt date,
the individuals-only flag, and a single page of 100 records; and the
fetch consults the HTTP collaborator only at that one query (no further
pagination): two collaborators agreeing there give identical fetch
results. -/
theorem C7_query_params (contributor : Contributor) (api_key : String)
    (now : DateTime) :
    buildParams contributor api_key now 180 =
      { api_key := api_key
        contributor_name := contributor.name
        contributor_employer := contributor.employer
        min_date := fmtMDY (now.subDays 180)
        max_date := fmtMDY now
        sort := "-contribution_receipt_date"
        per_page := 100
        is_individual := true } ∧
    (∀ http http2 : FecParams → HttpOutcome,
        http (buildParams contributor api_key now 180) =
          http2 (buildParams contributor api_key now 180) →
        get_fec_contributions contributor api_key http now =
          get_fec_contributions contributor api_key http2 now) := by
  constructor
  · rfl
  · intro http http2 h
    unfold get_fec_contributions fetchTry
    rw [h]

/-- An HTTP collaborator raising a transport error on every query. -/
def exnHttp : FecParams → HttpOutcome := fun _ => .exn "connection refused"

/-- An HTTP collaborator equal to exnHttp exactly on the queries the
fetcher builds (it inspects only the page size). -/
def exnHttp100 : FecParams → HttpOutcome := fun p =>
  if p.per_page = 100 then .exn "connection refused" else .response 200 none

/-- Witness for C7: two collaborators that agree at the single built
query produce identical fetch results. -/
theorem C7_query_params_witness :
    get_fec_contributions cSample "key" exnHttp wNow =
      get_fec_contributions cSample "key" exnHttp100 wNow :=
  (C7_query_params cSample "key" wNow).2 exnHttp exnHttp100 rfl

/-! ## C3 -/

/-- A raw result inside the load window whose contribution date is
malformed. -/
def badDateResult : Json := .obj
  [("load_date", .str "2025-01-11T09:00:00"),
   ("contribution_receipt_date", .str "bad"),
   ("contribution_receipt_amount", .num 10),
   ("contributor_name", .str "Jane Doe"),
   ("contributor_employer", .null),
   ("committee", .obj [("name", .str "Some PAC")])]

/-- An HTTP collaborator answering 200 with a well-formed JSON body
containing badDateResult. -/
def badDateHttp : FecParams → HttpOutcome := fun _ =>
  .response 200 (some (.obj [("results", .arr [badDateResult])]))

/-- Counterexample to C3 as stated: a malformed contribution date in an
otherwise healthy 200 response does NOT degrade to an empty record
sequence — the ValueError escapes get_fec_contributions to its caller,
because the except clause catches only RequestException. -/
theorem C3_counterexample :
    get_fec_contributions cSample "key" badDateHttp wNow =
      .error (.valueError "time data does not match date format") ∧
    get_fec_contributions cSample "key" badDateHttp wNow ≠ .ok [] := by
  constructor
  · rfl
  · intro h
    have hrfl : get_fec_contributions cSample "key" badDateHttp wNow =
        .error (.valueError "time data does not match date format") := rfl
    rw [hrfl] at h
    exact Except.noConfusion h

/-- C3 as amended: a transport exception, an HTTP error status (the
4xx/5xx range raise_for_status raises on, and only that range), and an
undecodable JSON body each degrade to an empty record sequence and are
never raised to the caller; but a parse error inside a decoded response
(malformed date/amount/shape, modelled by any non-RequestException
exception of the try block) propagates to the caller. -/
theorem fetchTry_exn {http : FecParams → HttpOutcome} {params : FecParams}
    {ml : DateTime} {m : String} (h : http params = .exn m) :
    fetchTry http params ml = .error (.requestException m) := by
  unfold fetchTry
  rw [h]

theorem fetchTry_errstatus {http : FecParams → HttpOutcome} {params : FecParams}
    {ml : DateTime} {s : Nat} {b : Option Json}
    (h : http params = .response s b) (hs : 400 ≤ s) (hs6 : s < 600) :
    fetchTry http params ml = .error (.requestException "HTTPError") := by
  unfold fetchTry
  rw [h]
  exact if_pos ⟨hs, hs6⟩

theorem fetchTry_badjson (ml : DateTime) {http : FecParams → HttpOutcome}
    {params : FecParams} {s : Nat} (h : http params = .response s none) :
    fetchTry http params ml = .error (.requestException "HTTPError") ∨
    fetchTry http params ml = .error (.requestException "JSONDecodeError") := by
  by_cases h4 : 400 ≤ s ∧ s < 600
  · exact Or.inl (fetchTry_errstatus h h4.1 h4.2)
  · right
    unfold fetchTry
    rw [h]
    exact if_neg h4

theorem get_fec_of_req {contributor : Contributor} {api_key : String}
    {http : FecParams → HttpOutcome} {now : DateTime} {m : String}
    (h : fetchTry http (buildParams contributor api_key now 180)
        (now.subDays 14) = .error (.requestException m)) :
    get_fec_contributions contributor api_key http now = .ok [] := by
  unfold get_fec_contributions
  rw [h]
  rfl

theorem get_fec_of_other {contributor : Contributor} {api_key : String}
    {http : FecParams → HttpOutcome} {now : DateTime} {e : PyError}
    (h : fetchTry http (buildParams contributor api_key now 180)
        (now.subDays 14) = .error e) (he : e.isRequestException = false) :
    get_fec_contributions contributor api_key http now = .error e := by
  unfold get_fec_contributions
  rw [h]
  show (if e.isRequestException = true then Except.ok [] else Except.error e) =
    Except.error e
  rw [he]
  rfl

theorem C3_error_policy (contributor : Contributor) (api_key : String)
    (http : FecParams → HttpOutcome) (now : DateTime) :
    (∀ m, http (buildParams contributor api_key now 180) = .exn m →
        get_fec_contributions contributor api_key http now = .ok []) ∧
    (∀ s b, http (buildParams contributor api_key now 180) = .response s b →
        400 ≤ s → s < 600 →
        get_fec_contributions contributor api_key http now = .ok []) ∧
    (∀ s, http (buildParams contributor api_key now 180) = .response s none →
        get_fec_contributions contributor api_key http now = .ok []) ∧
    (∀ e, fetchTry http (buildParams contributor api_key now 180)
          (now.subDays 14) = .error e →
        e.isRequestException = false →
        get_fec_contributions contributor api_key http now = .error e) ∧
    (∀ e, get_fec_contributions contributor api_key http now = .error e →
        e.isRequestException = false) := by
  refine ⟨?_, ?_, ?_, ?_, ?_⟩
  · intro m h
    exact get_fec_of_req (fetchTry_exn h)
  · intro s b h hs hs6
    exact get_fec_of_req (fetchTry_errstatus h hs hs6)
  · intro s h
    cases fetchTry_badjson (now.subDays 14) h with
    | inl h2 => exact get_fec_of_req h2
    | inr h2 => exact get_fec_of_req h2
  · intro e h he
    exact get_fec_of_other h he
  · intro e h
    unfold get_fec_contributions at h
    cases hft : fetchTry http (buildParams contributor api_key now 180)
        (now.subDays 14) with
    | ok l => rw [hft] at h; exact Except.noConfusion h
    | error e0 =>
        rw [hft] at h
        by_cases hreq : e0.isRequestException = true
        · rw [show (match Except.error e0 with
              | Except.error e =>
                  if e.isRequestException = true then Except.ok ([] : List Contribution)
                  else Except.error e
              | Except.ok contributions => Except.ok contributions) =
              Except.ok ([] : List Contribution) from by rw [show (match Except.error e0 with
                | Except.error e =>
                    if e.isRequestException = true then Except.ok ([] : List Contribution)
                    else Except.error e
                | Except.ok contributions => Except.ok contributions) =
                (if e0.isRequestException = true then Except.ok ([] : List Contribution)
                  else Except.error e0) from rfl, hreq]; rfl] at h
          exact Except.noConfusion h
        · have hfalse := Bool.of_not_eq_true hreq
          rw [show (match Except.error e0 with
              | Except.error e =>
                  if e.isRequestException = true then Except.ok ([] : List Contribution)
                  else Except.error e
              | Except.ok contributions => Except.ok contributions) =
              Except.error e0 from by rw [show (match Except.error e0 with
                | Except.error e =>
                    if e.isRequestException = true then Except.ok ([] : List Contribution)
                    else Except.error e
                | Except.ok contributions => Except.ok contributions) =
                (if e0.isRequestException = true then Except.ok ([] : List Contribution)
                  else Except.error e0) from rfl, hfalse]; rfl] at h
          injection h with h
          rw [← h]
          exact hfalse

/-- Witness for the amended C3: the transport-failing collaborator
degrades to an empty sequence. -/
theorem C3_error_policy_witness :
    get_fec_contributions cSample "key" exnHttp wNow = .ok [] :=
  (C3_error_policy cSample "key" exnHttp wNow).1 "connection refused" rfl

/-! ## Lemmas about the aggregation loop -/

/-- The record list of a fetch outcome (empty on error; the loop only
produces it on ok). -/
def okList (x : Except PyError (List Contribution)) : List Contribution :=
  match x with
  | .ok l => l
  | .error _ => []

theorem dictSet_append {m : List (String × List Contribution)} {k : String}
    {v : List Contribution} (h : ∀ p ∈ m, p.1 ≠ k) :
    dictSet m k v = m ++ [(k, v)] := by
  induction m with
  | nil => rfl
  | cons p rest ih =>
      unfold dictSet
      rw [if_neg (fun he => h p (List.mem_cons_self p rest) he)]
      rw [ih (fun q hq => h q (List.mem_cons_of_mem p hq))]
      rfl

theorem aggFrom_spec (api_key : String) (http : FecParams → HttpOutcome)
    (now : DateTime) :
    ∀ (cs : List Contributor) (acc out : List (String × List Contribution)),
    (∀ c ∈ cs, ∀ p ∈ acc, p.1 ≠ c.name) →
    (cs.map Contributor.name).Nodup →
    aggFrom api_key http now acc cs = .ok out →
    (∀ c ∈ cs, ∃ l, get_fec_contributions c api_key http now = .ok l) ∧
    out = acc ++ cs.map
      (fun c => (c.name, okList (get_fec_contributions c api_key http now))) := by
  intro cs
  induction cs with
  | nil =>
      intro acc out hdisj hnodup h
      rw [aggFrom] at h
      injection h with h
      simp [h]
  | cons c rest ih =>
      intro acc out hdisj hnodup h
      rw [aggFrom] at h
      obtain ⟨l, hl, h⟩ := bind_ok_elim h
      have hsetc : dictSet acc c.name l = acc ++ [(c.name, l)] :=
        dictSet_append (fun p hp => hdisj c (List.mem_cons_self c rest) p hp)
      rw [hsetc] at h
      have hnameshead : c.name ∉ rest.map Contributor.name := by
        have := hnodup
        rw [List.map_cons, List.nodup_cons] at this
        exact this.1
      have hdisj2 : ∀ c2 ∈ rest, ∀ p ∈ acc ++ [(c.name, l)], p.1 ≠ c2.name := by
        intro c2 hc2 p hp
        rcases List.mem_append.mp hp with hin | hin
        · exact hdisj c2 (List.mem_cons_of_mem c hc2) p hin
        · rcases List.mem_singleton.mp hin with rfl
          intro hne
          have hcc : c.name = c2.name := hne
          exact hnameshead (by rw [hcc]; exact List.mem_map_of_mem Contributor.name hc2)
      have hnodup2 : (rest.map Contributor.name).Nodup := by
        rw [List.map_cons, List.nodup_cons] at hnodup
        exact hnodup.2
      obtain ⟨hall, hout⟩ := ih (acc ++ [(c.name, l)]) out hdisj2 hnodup2 h
      constructor
      · intro c2 hc2
        rcases List.mem_cons.mp hc2 with rfl | hin
        · exact ⟨l, hl⟩
        · exact hall c2 hin
      · rw [hout, List.map_cons, hl]
        simp [okList]

theorem aggFrom_total (api_key : String) (http : FecParams → HttpOutcome)
    (now : DateTime) :
    ∀ (cs : List Contributor) (acc : List (String × List Contribution)),
    (∀ c ∈ cs, ∃ l, get_fec_contributions c api_key http now = .ok l) →
    ∃ out, aggFrom api_key http now acc cs = .ok out := by
  intro cs
  induction cs with
  | nil => exact fun acc _ => ⟨acc, rfl⟩
  | cons c rest ih =>
      intro acc hall
      obtain ⟨l, hl⟩ := hall c (List.mem_cons_self c rest)
      obtain ⟨out, hout⟩ :=
        ih (dictSet acc c.name l) (fun c2 hc2 => hall c2 (List.mem_cons_of_mem c hc2))
      refine ⟨out, ?_⟩
      rw [aggFrom, hl, ok_bind]
      exact hout

theorem dictFind_map_name {cs : List Contributor} {A : Contributor}
    (f : Contributor → List Contribution)
    (hnodup : (cs.map Contributor.name).Nodup) (hA : A ∈ cs) :
    dictFind (cs.map fun c => (c.name, f c)) A.name = some (f A) := by
  induction cs with
  | nil => cases hA
  | cons c rest ih =>
      rw [List.map_cons, List.nodup_cons] at hnodup
      rcases List.mem_cons.mp hA with rfl | hin
      · rw [List.map_cons]
        unfold dictFind
        rw [if_pos rfl]
      · rw [List.map_cons]
        unfold dictFind
        have hne : A.name ≠ c.name := by
          intro he
          exact hnodup.1 (he ▸ List.mem_map_of_mem Contributor.name hin)
        rw [if_neg hne]
        exact ih hnodup.2 hin

/-! ## C4 -/

/-- C4: a transport failure while fetching one contributor B yields an
empty sequence for B only: (i) B's fetch degrades to the empty list;
(ii) in any aggregate of the run, the keys are exactly the registry
names in order, B appears with an empty group, and every contributor's
entry is exactly its own independent fetch result; (iii) the run
continues: whenever every other contributor's fetch succeeds, the whole
aggregation succeeds despite B's failure. -/
theorem C4_failure_isolation (registry : List Contributor) (api_key : String)
    (http : FecParams → HttpOutcome) (now : DateTime) (B : Contributor)
    (m : String)
    (hnodup : (registry.map Contributor.name).Nodup)
    (hB : B ∈ registry)
    (hfail : http (buildParams B api_key now 180) = .exn m) :
    get_fec_contributions B api_key http now = .ok [] ∧
    (∀ fetched, aggregate registry api_key http now = .ok fetched →
        fetched.map Prod.fst = registry.map Contributor.name ∧
        dictFind fetched B.name = some [] ∧
        (∀ A ∈ registry, dictFind fetched A.name =
          some (okList (get_fec_contributions A api_key http now)))) ∧
    ((∀ A ∈ registry, A.name ≠ B.name →
        ∃ l, get_fec_contributions A api_key http now = .ok l) →
      ∃ fetched, aggregate registry api_key http now = .ok fetched) := by
  have hBfetch : get_fec_contributions B api_key http now = .ok [] :=
    get_fec_of_req (fetchTry_exn hfail)
  refine ⟨hBfetch, ?_, ?_⟩
  · intro fetched hagg
    obtain ⟨hall, hout⟩ := aggFrom_spec api_key http now registry [] fetched
      (by intro c hc p hp; cases hp) hnodup hagg
    refine ⟨?_, ?_, ?_⟩
    · rw [hout]
      simp
    · rw [hout]
      have hfind := dictFind_map_name
        (fun c => okList (get_fec_contributions c api_key http now)) hnodup hB
      rw [List.nil_append]
      rw [hfind]
      show some (okList (get_fec_contributions B api_key http now)) = some []
      rw [hBfetch]
      rfl
    · intro A hA
      rw [hout, List.nil_append]
      exact dictFind_map_name _ hnodup hA
  · intro hothers
    apply aggFrom_total
    intro c hc
    by_cases hcB : c.name = B.name
    · have hcB2 : c = B := List.inj_on_of_nodup_map hnodup hc hB hcB
      rw [hcB2, hBfetch]
      exact ⟨[], rfl⟩
    · exact hothers c hc hcB

/-- A second contributor whose fetch will fail. -/
def cOther : Contributor := { name := "B. Giver", employer := none }

/-- An HTTP collaborator failing exactly for cOther and returning one
fresh record otherwise. -/
def httpAB : FecParams → HttpOutcome := fun p =>
  if p.contributor_name = "B. Giver" then .exn "connection reset"
  else .response 200 (some (.obj [("results", .arr [freshResult])]))

/-- Witness for C4: in the two-entry registry, cOther's transport
failure degrades to an empty group. -/
theorem C4_failure_isolation_witness :
    get_fec_contributions cOther "key" httpAB wNow = .ok [] :=
  (C4_failure_isolation [cSample, cOther] "key" httpAB wNow cOther
      "connection reset" (by decide) (by decide) rfl).1

/-! ## C8 -/

/-- C8: ordering: (i) aggregate entries follow registry declaration
order; (ii) within one contributor the retained records are the in-order
filter of the API response order; (iii) the digest renders a non-empty
group as the header row followed by one row per record in list order. -/
theorem C8_ordering (registry : List Contributor) (api_key : String)
    (http : FecParams → HttpOutcome) (now : DateTime)
    (hnodup : (registry.map Contributor.name).Nodup) :
    (∀ fetched, aggregate registry api_key http now = .ok fetched →
        fetched.map Prod.fst = registry.map Contributor.name) ∧
    (∀ ml rs out, processResults ml rs = .ok out →
        out = rs.filterMap fun x => okRecord (parseOne ml x)) ∧
    (∀ nm contribs, contribs ≠ ([] : List Contribution) →
        sectionHtml (nm, contribs) =
          "<h3>Contributions from " ++ nm ++ "</h3>" ++
            "<table border=\x271\x27 style=\x27border-collapse: collapse; width: 100%;\x27>" ++
            headerRowHtml ++ String.join (contribs.map rowHtml) ++
            "</table><br>") := by
  refine ⟨?_, ?_, ?_⟩
  · intro fetched hagg
    obtain ⟨_, hout⟩ := aggFrom_spec api_key http now registry [] fetched
      (by intro c hc p hp; cases hp) hnodup hagg
    rw [hout]
    simp
  · intro ml rs out h
    exact processResults_ok h
  · intro nm contribs hne
    have hcond : (!contribs.isEmpty) = true := by
      cases contribs with
      | nil => exact absurd rfl hne
      | cons a l => rfl
    unfold sectionHtml
    rw [if_pos hcond]

/-- Witness for C8: the loop keeps only freshResult out of the pair and
in response order. -/
theorem C8_ordering_witness :
    [freshContribution] =
      [freshResult, staleResult].filterMap
        (fun x => okRecord (parseOne (wNow.subDays 14) x)) :=
  (C8_ordering [] "key" emptyHttp wNow (by decide)).2.1
    (wNow.subDays 14) [freshResult, staleResult] [freshContribution] rfl

/-! ## Reduction lemmas for the orchestrator -/

theorem runBody_reduced (w : World) (pid ne fecKey pw : String) (port : Int)
    (agg : List (String × List Contribution))
    (hp : w.env.project_id = some pid)
    (hne : w.env.notification_email = some ne)
    (hk : w.secrets "fec-api-key" = .ok fecKey)
    (hpw : w.secrets "smtp-password" = .ok pw)
    (hport : pyInt ((w.env.smtp_port).getD "587") = .ok port)
    (hagg : aggregate contributors fecKey w.http w.now = .ok agg) :
    runBody w =
      if agg.any (fun p => !p.2.isEmpty) then
        match send_email w.transportError with
        | .error e => (.error e,
            [{ to_email := ne,
               subject := "FEC Contribution Alert - " ++ fmtYMD w.now,
               body := format_email_body agg }])
        | .ok _ => (.ok ("Alert sent successfully", 200),
            [{ to_email := ne,
               subject := "FEC Contribution Alert - " ++ fmtYMD w.now,
               body := format_email_body agg }])
      else (.ok ("No new contributions found", 200), []) := by
  unfold runBody
  simp only [hp, hne, hk, hpw, hport, hagg]

theorem monitor_of_runBody_ok {w : World} {r : String × Nat}
    {sends : List EmailMsg} (h : runBody w = (.ok r, sends)) :
    monitor_contributions w = (r, sends) := by
  unfold monitor_contributions
  rw [h]

theorem monitor_of_runBody_err {w : World} {e : PyError}
    {sends : List EmailMsg} (h : runBody w = (.error e, sends)) :
    monitor_contributions w = (("Error: " ++ e.msg, 500), sends) := by
  unfold monitor_contributions
  rw [h]

theorem runBody_no_new (w : World) (pid ne fecKey pw : String) (port : Int)
    (agg : List (String × List Contribution))
    (hp : w.env.project_id = some pid)
    (hne : w.env.notification_email = some ne)
    (hk : w.secrets "fec-api-key" = .ok fecKey)
    (hpw : w.secrets "smtp-password" = .ok pw)
    (hport : pyInt ((w.env.smtp_port).getD "587") = .ok port)
    (hagg : aggregate contributors fecKey w.http w.now = .ok agg)
    (hempty : agg.any (fun p => !p.2.isEmpty) = false) :
    runBody w = (.ok ("No new contributions found", 200), []) := by
  rw [runBody_reduced w pid ne fecKey pw port agg hp hne hk hpw hport hagg,
    hempty]
  rfl

theorem runBody_alert (w : World) (pid ne fecKey pw : String) (port : Int)
    (agg : List (String × List Contribution))
    (hp : w.env.project_id = some pid)
    (hne : w.env.notification_email = some ne)
    (hk : w.secrets "fec-api-key" = .ok fecKey)
    (hpw : w.secrets "smtp-password" = .ok pw)
    (hport : pyInt ((w.env.smtp_port).getD "587") = .ok port)
    (hagg : aggregate contributors fecKey w.http w.now = .ok agg)
    (hany : agg.any (fun p => !p.2.isEmpty) = true)
    (hok : w.transportError = none) :
    runBody w = (.ok ("Alert sent successfully", 200),
      [{ to_email := ne,
         subject := "FEC Contribution Alert - " ++ fmtYMD w.now,
         body := format_email_body agg }]) := by
  rw [runBody_reduced w pid ne fecKey pw port agg hp hne hk hpw hport hagg,
    hany, hok]
  rfl

theorem runBody_sendfail (w : World) (pid ne fecKey pw : String) (port : Int)
    (agg : List (String × List Contribution)) (em : String)
    (hp : w.env.project_id = some pid)
    (hne : w.env.notification_email = some ne)
    (hk : w.secrets "fec-api-key" = .ok fecKey)
    (hpw : w.secrets "smtp-password" = .ok pw)
    (hport : pyInt ((w.env.smtp_port).getD "587") = .ok port)
    (hagg : aggregate contributors fecKey w.http w.now = .ok agg)
    (hany : agg.any (fun p => !p.2.isEmpty) = true)
    (hfailsend : w.transportError = some em) :
    runBody w = (.error (.smtpException em),
      [{ to_email := ne,
         subject := "FEC Contribution Alert - " ++ fmtYMD w.now,
         body := format_email_body agg }]) := by
  rw [runBody_reduced w pid ne fecKey pw port agg hp hne hk hpw hport hagg,
    hany, hfailsend]
  rfl

/-! ## C2 -/

/-- C2: the notification decision is global.  Given a run that reaches
the decision (configuration, secrets and aggregation all succeed): if
every contributor's record sequence is empty, no notification is
attempted and the run reports the no-new-contributions outcome; if some
contributor has at least one record (and the transport works), exactly
one notification goes out, its digest body is the rendering of the full
aggregate whose keys are all registry contributors in order (zero-record
ones included), and the run reports success. -/
theorem C2_digest_decision (w : World) (pid ne fecKey pw : String) (port : Int)
    (agg : List (String × List Contribution))
    (hp : w.env.project_id = some pid)
    (hne : w.env.notification_email = some ne)
    (hk : w.secrets "fec-api-key" = .ok fecKey)
    (hpw : w.secrets "smtp-password" = .ok pw)
    (hport : pyInt ((w.env.smtp_port).getD "587") = .ok port)
    (hagg : aggregate contributors fecKey w.http w.now = .ok agg) :
    ((∀ p ∈ agg, p.2 = ([] : List Contribution)) →
        monitor_contributions w = (("No new contributions found", 200), [])) ∧
    ((∃ p, p ∈ agg ∧ p.2 ≠ ([] : List Contribution)) →
        w.transportError = none →
        monitor_contributions w =
          (("Alert sent successfully", 200),
           [{ to_email := ne,
              subject := "FEC Contribution Alert - " ++ fmtYMD w.now,
              body := format_email_body agg }]) ∧
        agg.map Prod.fst = contributors.map Contributor.name) := by
  constructor
  · intro hallempty
    have hempty : agg.any (fun p => !p.2.isEmpty) = false := by
      cases hq : agg.any (fun p => !p.2.isEmpty) with
      | false => rfl
      | true =>
          obtain ⟨p, hpmem, hptrue⟩ := List.any_eq_true.mp hq
          rw [hallempty p hpmem] at hptrue
          simp at hptrue
    exact monitor_of_runBody_ok
      (runBody_no_new w pid ne fecKey pw port agg hp hne hk hpw hport hagg hempty)
  · intro hsome hok
    obtain ⟨p, hpmem, hpne⟩ := hsome
    have hany : agg.any (fun p => !p.2.isEmpty) = true := by
      apply List.any_eq_true.mpr
      refine ⟨p, hpmem, ?_⟩
      cases hp2 : p.2 with
      | nil => exact absurd hp2 hpne
      | cons a l => rfl
    refine ⟨monitor_of_runBody_ok
      (runBody_alert w pid ne fecKey pw port agg hp hne hk hpw hport hagg hany hok),
      ?_⟩
    obtain ⟨_, hout⟩ := aggFrom_spec fecKey w.http w.now contributors [] agg
      (by intro c hc q hq; cases hq) (by decide) hagg
    rw [hout]
    simp

/-- A configured environment used by the run-level witnesses. -/
def envW : Env :=
  { project_id := some "proj"
    notification_email := some "alerts@example.com"
    smtp_server := none
    smtp_port := none
    smtp_username := none
    from_email := none }

/-- A run whose every fetch returns an empty page. -/
def w0 : World :=
  { env := envW
    secrets := fun _ => .ok "secret"
    http := emptyHttp
    now := wNow
    transportError := none }

/-- The aggregate of that run: every contributor with an empty group. -/
def agg0 : List (String × List Contribution) :=
  contributors.map fun c => (c.name, [])

/-- Witness for C2: with empty groups everywhere, no notification and
the no-new-contributions outcome. -/
theorem C2_digest_decision_witness :
    monitor_contributions w0 = (("No new contributions found", 200), []) :=
  (C2_digest_decision w0 "proj" "alerts@example.com" "secret" "secret" 587 agg0
      rfl rfl rfl rfl rfl rfl).1
    (by
      intro p hp
      simp only [agg0, contributors, List.map_cons, List.map_nil,
        List.mem_cons, List.not_mem_nil, or_false] at hp
      rcases hp with rfl|rfl|rfl|rfl|rfl|rfl|rfl|rfl|rfl|rfl|rfl|rfl <;> rfl)

/-! ## C6 -/

theorem runBody_ok_shape (w : World) (r : String × Nat) (sends : List EmailMsg)
    (h : runBody w = (.ok r, sends)) :
    r = ("Alert sent successfully", 200) ∨
    r = ("No new contributions found", 200) := by
  unfold runBody at h
  repeat' split at h
  all_goals injection h with h1 h2
  all_goals first
    | exact Except.noConfusion h1
    | (injection h1 with h1; exact Or.inl h1.symm)
    | (injection h1 with h1; exact Or.inr h1.symm)

/-- C6: every invocation of the entry point yields exactly one of the
three outcomes (success with the alert body, success with the
no-new-contributions body, or the 500 error body) and never an escaped
exception; moreover a notification-transport failure on a triggering
run is propagated into the 500 outcome (after the one send attempt),
not swallowed. -/
theorem C6_entrypoint_outcomes (w : World) :
    ((monitor_contributions w).1 = ("Alert sent successfully", 200) ∨
     (monitor_contributions w).1 = ("No new contributions found", 200) ∨
     ∃ m, (monitor_contributions w).1 = ("Error: " ++ m, 500)) ∧
    (∀ pid ne fecKey pw port agg em,
        w.env.project_id = some pid →
        w.env.notification_email = some ne →
        w.secrets "fec-api-key" = .ok fecKey →
        w.secrets "smtp-password" = .ok pw →
        pyInt ((w.env.smtp_port).getD "587") = .ok port →
        aggregate contributors fecKey w.http w.now = .ok agg →
        agg.any (fun p => !p.2.isEmpty) = true →
        w.transportError = some em →
        monitor_contributions w =
          (("Error: " ++ em, 500),
           [{ to_email := ne,
              subject := "FEC Contribution Alert - " ++ fmtYMD w.now,
              body := format_email_body agg }])) := by
  constructor
  · rcases hrb : runBody w with ⟨res, sends⟩
    cases res with
    | ok r =>
        have hmon := monitor_of_runBody_ok hrb
        rcases runBody_ok_shape w r sends hrb with h | h
        · left
          rw [hmon, h]
        · right
          left
          rw [hmon, h]
    | error e =>
        have hmon := monitor_of_runBody_err hrb
        right
        right
        exact ⟨e.msg, by rw [hmon]⟩
  · intro pid ne fecKey pw port agg em hp hne hk hpw hport hagg hany hsend
    have hrb := runBody_sendfail w pid ne fecKey pw port agg em
      hp hne hk hpw hport hagg hany hsend
    rw [monitor_of_runBody_err hrb]
    rfl

/-- An HTTP collaborator returning one fresh record for the first
watched name and empty pages otherwise. -/
def httpOne : FecParams → HttpOutcome := fun p =>
  if p.contributor_name = "Sundar Pichai" then
    .response 200 (some (.obj [("results", .arr [freshResult])]))
  else .response 200 (some (.obj [("results", .arr [])]))

/-- A triggering run whose SMTP transport fails. -/
def w1 : World :=
  { env := envW
    secrets := fun _ => .ok "secret"
    http := httpOne
    now := wNow
    transportError := some "smtp connection failed" }

/-- The aggregate of that run. -/
def agg1 : List (String × List Contribution) :=
  contributors.map fun c =>
    (c.name, if c.name = "Sundar Pichai" then [freshContribution] else [])

/-- Witness for C6: the send failure of the triggering run w1 surfaces
as the 500 outcome, after exactly one send attempt. -/
theorem C6_entrypoint_outcomes_witness :
    monitor_contributions w1 =
      (("Error: smtp connection failed", 500),
       [{ to_email := "alerts@example.com",
          subject := "FEC Contribution Alert - " ++ fmtYMD wNow,
          body := format_email_body agg1 }]) :=
  (C6_entrypoint_outcomes w1).2 "proj" "alerts@example.com" "secret" "secret"
    587 agg1 "smtp connection failed" rfl rfl rfl rfl rfl rfl rfl rfl

end FecMonitor
